import Mathlib

/-!
Shallow embedding of Sunshine's inputtino Linux input layer
(`src/platform/linux/input/inputtino_keyboard.cpp` and
`src/platform/linux/input/inputtino_mouse.cpp`), X11 build
(`SUNSHINE_BUILD_X11`).

External collaborators are modelled explicitly:
  * the X display connection is a `Bool` ("a live connection is present"),
    together with a `layout : Int -> Nat` parameter standing for
    `XKeysymToKeycode` (the active keyboard layout; `0` = `NoSymbol`);
  * the inputtino virtual keyboard / mouse handles are `Bool`s;
  * `libevdev_event_code_from_name` is a parameter `Char -> Int`
    (`-1` = not found), with `evdevHex` giving its actual behaviour on the
    names `KEY_<hex digit>` that the Unicode path can produce;
  * backend calls (`XTestFake*`, `XFlush`, `press`, `release`) become
    constructors of event lists, in emission order.

Numeric constants (`KEY_*` from linux `input-event-codes.h`, `XK_*` from
X11 `keysymdef.h`, `Button1..3` from `X.h`) carry their real values.
C++ `int` values are embedded as `Int`; the C++ `/` on `int` is
truncation toward zero, embedded as `Int.div`.
-/

namespace Sunshine

/-! ## Backend event vocabulary -/

/-- A call observable on the X11 backend from the keyboard path:
`XTestFakeKeyEvent` (native keycode, pressed flag) or `XFlush`. -/
inductive XEvent where
  | fakeKey (keycode : Nat) (pressed : Bool)
  | flushX
  deriving DecidableEq, Repr

/-- A call observable on the X11 backend from the mouse path:
`XTestFakeButtonEvent` (button number, pressed flag), relative motion,
absolute motion, or `XFlush`. -/
inductive MEvent where
  | fakeButton (button : Nat) (pressed : Bool)
  | fakeRelMotion (dx dy : Int)
  | fakeMotion (x y : Int)
  | flushM
  deriving DecidableEq, Repr

/-- A call observable on the inputtino virtual keyboard:
`press`/`release` of a Moonlight (protocol) virtual-key code. -/
inductive KEvent where
  | press (code : Int)
  | release (code : Int)
  deriving DecidableEq, Repr

/-! ## Mouse emitter (`inputtino_mouse.cpp`) -/

namespace mouse

/-- Moonlight mouse-button code `BUTTON_LEFT` (from `src/platform/common.h`,
outside this tree; value as declared there). -/
def BUTTON_LEFT : Int := 1

/-- Moonlight mouse-button code `BUTTON_MIDDLE`. -/
def BUTTON_MIDDLE : Int := 2

/-- Moonlight mouse-button code `BUTTON_RIGHT`. -/
def BUTTON_RIGHT : Int := 3

/-- X11 `Button1`. -/
def Button1 : Nat := 1

/-- X11 `Button2`. -/
def Button2 : Nat := 2

/-- X11 `Button3`. -/
def Button3 : Nat := 3

/-- `platf::mouse::move`: relative motion plus flush when a display
connection is present, otherwise nothing. -/
def move (display : Bool) (deltaX deltaY : Int) : List MEvent :=
  if display then [MEvent.fakeRelMotion deltaX deltaY, MEvent.flushM] else []

/-- The `switch (button)` of `platf::mouse::button`: the three supported
Moonlight codes map to X11 `Button1`/`Button2`/`Button3`; any other value
takes the `default:` branch (log and `return`). -/
def xButtonType (btn : Int) : Option Nat :=
  if btn = BUTTON_LEFT then some Button1
  else if btn = BUTTON_MIDDLE then some Button2
  else if btn = BUTTON_RIGHT then some Button3
  else none

/-- `platf::mouse::button`: resolve the button first (unsupported values
return before the display check), then emit one `XTestFakeButtonEvent`
with `!release` plus a flush when a display connection is present. -/
def button (display : Bool) (btn : Int) (release : Bool) : List MEvent :=
  match xButtonType btn with
  | none => []
  | some b => if display then [MEvent.fakeButton b (!release), MEvent.flushM] else []

/-- One iteration of the `x_scroll` loop: a press immediately followed by
a release of the same button. -/
def pulsePair (b : Nat) : List MEvent :=
  [MEvent.fakeButton b true, MEvent.fakeButton b false]

/-- `platf::mouse::x_scroll`: pick `button_pos` when `distance > 0` else
`button_neg`, emit `abs(distance)` press/release pairs on it, then flush;
nothing at all without a display connection. -/
def x_scroll (display : Bool) (distance : Int) (button_pos button_neg : Nat) : List MEvent :=
  if display then
    (List.replicate distance.natAbs
      (pulsePair (if distance > 0 then button_pos else button_neg))).flatten ++ [MEvent.flushM]
  else []

/-- `platf::mouse::scroll`: vertical scroll, quantized by C `int` division
by 60 (truncation toward zero), buttons 4/5. -/
def scroll (display : Bool) (high_res_distance : Int) : List MEvent :=
  x_scroll display (Int.tdiv high_res_distance 60) 4 5

/-- `platf::mouse::hscroll`: horizontal scroll, buttons 6/7. -/
def hscroll (display : Bool) (high_res_distance : Int) : List MEvent :=
  x_scroll display (Int.tdiv high_res_distance 60) 6 7

/-- `platf::mouse::get_location`: both branches return `{0, 0}`. -/
def get_location (mousePresent : Bool) : Int × Int :=
  if mousePresent then (0, 0) else (0, 0)

/-- Number of scroll pulses in an event list: presses of any button. -/
def pulseCount (l : List MEvent) : Nat :=
  l.countP fun e =>
    match e with
    | MEvent.fakeButton _ true => true
    | _ => false

end mouse


/-! ## Keyboard emitter (`inputtino_keyboard.cpp`) -/

namespace keyboard

/-- `constexpr auto UNKNOWN = 0;` -/
def UNKNOWN : Int := 0

/-! Linux evdev keycode constants (`linux/input-event-codes.h`). -/
def KEY_ESC : Int := 1
def KEY_1 : Int := 2
def KEY_2 : Int := 3
def KEY_3 : Int := 4
def KEY_4 : Int := 5
def KEY_5 : Int := 6
def KEY_6 : Int := 7
def KEY_7 : Int := 8
def KEY_8 : Int := 9
def KEY_9 : Int := 10
def KEY_0 : Int := 11
def KEY_MINUS : Int := 12
def KEY_EQUAL : Int := 13
def KEY_BACKSPACE : Int := 14
def KEY_TAB : Int := 15
def KEY_Q : Int := 16
def KEY_W : Int := 17
def KEY_E : Int := 18
def KEY_R : Int := 19
def KEY_T : Int := 20
def KEY_Y : Int := 21
def KEY_U : Int := 22
def KEY_I : Int := 23
def KEY_O : Int := 24
def KEY_P : Int := 25
def KEY_LEFTBRACE : Int := 26
def KEY_RIGHTBRACE : Int := 27
def KEY_ENTER : Int := 28
def KEY_LEFTCTRL : Int := 29
def KEY_A : Int := 30
def KEY_S : Int := 31
def KEY_D : Int := 32
def KEY_F : Int := 33
def KEY_G : Int := 34
def KEY_H : Int := 35
def KEY_J : Int := 36
def KEY_K : Int := 37
def KEY_L : Int := 38
def KEY_SEMICOLON : Int := 39
def KEY_APOSTROPHE : Int := 40
def KEY_GRAVE : Int := 41
def KEY_LEFTSHIFT : Int := 42
def KEY_BACKSLASH : Int := 43
def KEY_Z : Int := 44
def KEY_X : Int := 45
def KEY_C : Int := 46
def KEY_V : Int := 47
def KEY_B : Int := 48
def KEY_N : Int := 49
def KEY_M : Int := 50
def KEY_COMMA : Int := 51
def KEY_DOT : Int := 52
def KEY_SLASH : Int := 53
def KEY_RIGHTSHIFT : Int := 54
def KEY_KPASTERISK : Int := 55
def KEY_LEFTALT : Int := 56
def KEY_SPACE : Int := 57
def KEY_CAPSLOCK : Int := 58
def KEY_F1 : Int := 59
def KEY_F2 : Int := 60
def KEY_F3 : Int := 61
def KEY_F4 : Int := 62
def KEY_F5 : Int := 63
def KEY_F6 : Int := 64
def KEY_F7 : Int := 65
def KEY_F8 : Int := 66
def KEY_F9 : Int := 67
def KEY_F10 : Int := 68
def KEY_NUMLOCK : Int := 69
def KEY_SCROLLLOCK : Int := 70
def KEY_KP7 : Int := 71
def KEY_KP8 : Int := 72
def KEY_KP9 : Int := 73
def KEY_KPMINUS : Int := 74
def KEY_KP4 : Int := 75
def KEY_KP5 : Int := 76
def KEY_KP6 : Int := 77
def KEY_KPPLUS : Int := 78
def KEY_KP1 : Int := 79
def KEY_KP2 : Int := 80
def KEY_KP3 : Int := 81
def KEY_KP0 : Int := 82
def KEY_KPDOT : Int := 83
def KEY_102ND : Int := 86
def KEY_F11 : Int := 87
def KEY_F12 : Int := 88
def KEY_KATAKANA : Int := 90
def KEY_KATAKANAHIRAGANA : Int := 93
def KEY_RIGHTCTRL : Int := 97
def KEY_KPSLASH : Int := 98
def KEY_SYSRQ : Int := 99
def KEY_RIGHTALT : Int := 100
def KEY_HOME : Int := 102
def KEY_UP : Int := 103
def KEY_PAGEUP : Int := 104
def KEY_LEFT : Int := 105
def KEY_RIGHT : Int := 106
def KEY_END : Int := 107
def KEY_DOWN : Int := 108
def KEY_PAGEDOWN : Int := 109
def KEY_INSERT : Int := 110
def KEY_DELETE : Int := 111
def KEY_PAUSE : Int := 119
def KEY_KPCOMMA : Int := 121
def KEY_HANGEUL : Int := 122
def KEY_HANJA : Int := 123
def KEY_LEFTMETA : Int := 125
def KEY_RIGHTMETA : Int := 126
def KEY_HELP : Int := 138
def KEY_SLEEP : Int := 142
def KEY_F13 : Int := 183
def KEY_F14 : Int := 184
def KEY_F15 : Int := 185
def KEY_F16 : Int := 186
def KEY_F17 : Int := 187
def KEY_F18 : Int := 188
def KEY_F19 : Int := 189
def KEY_F20 : Int := 190
def KEY_F21 : Int := 191
def KEY_F23 : Int := 193
def KEY_F24 : Int := 194
def KEY_PRINT : Int := 210
def KEY_SELECT : Int := 353
def KEY_CLEAR : Int := 355

/-! X11 keysym constants (`X11/keysymdef.h`). -/
def XK_space : Int := 32
def XK_apostrophe : Int := 39
def XK_comma : Int := 44
def XK_minus : Int := 45
def XK_period : Int := 46
def XK_slash : Int := 47
def XK_0 : Int := 48
def XK_1 : Int := 49
def XK_2 : Int := 50
def XK_3 : Int := 51
def XK_4 : Int := 52
def XK_5 : Int := 53
def XK_6 : Int := 54
def XK_7 : Int := 55
def XK_8 : Int := 56
def XK_9 : Int := 57
def XK_semicolon : Int := 59
def XK_equal : Int := 61
def XK_A : Int := 65
def XK_B : Int := 66
def XK_C : Int := 67
def XK_D : Int := 68
def XK_E : Int := 69
def XK_F : Int := 70
def XK_G : Int := 71
def XK_H : Int := 72
def XK_I : Int := 73
def XK_J : Int := 74
def XK_K : Int := 75
def XK_L : Int := 76
def XK_M : Int := 77
def XK_N : Int := 78
def XK_O : Int := 79
def XK_P : Int := 80
def XK_Q : Int := 81
def XK_R : Int := 82
def XK_S : Int := 83
def XK_T : Int := 84
def XK_U : Int := 85
def XK_V : Int := 86
def XK_W : Int := 87
def XK_X : Int := 88
def XK_Y : Int := 89
def XK_Z : Int := 90
def XK_backslash : Int := 92
def XK_grave : Int := 96
def XK_braceleft : Int := 123
def XK_braceright : Int := 125
def XK_BackSpace : Int := 65288
def XK_Tab : Int := 65289
def XK_Clear : Int := 65291
def XK_Return : Int := 65293
def XK_Pause : Int := 65299
def XK_Scroll_Lock : Int := 65300
def XK_Sys_Req : Int := 65301
def XK_Escape : Int := 65307
def XK_Kanji : Int := 65313
def XK_Kana_Shift : Int := 65326
def XK_Hangul : Int := 65329
def XK_Hangul_Jeonja : Int := 65336
def XK_Home : Int := 65360
def XK_Left : Int := 65361
def XK_Up : Int := 65362
def XK_Right : Int := 65363
def XK_Down : Int := 65364
def XK_Page_Up : Int := 65365
def XK_Page_Down : Int := 65366
def XK_End : Int := 65367
def XK_Select : Int := 65376
def XK_Print : Int := 65377
def XK_Insert : Int := 65379
def XK_Help : Int := 65386
def XK_Num_Lock : Int := 65407
def XK_KP_Multiply : Int := 65450
def XK_KP_Add : Int := 65451
def XK_KP_Separator : Int := 65452
def XK_KP_Subtract : Int := 65453
def XK_KP_Decimal : Int := 65454
def XK_KP_Divide : Int := 65455
def XK_KP_0 : Int := 65456
def XK_KP_1 : Int := 65457
def XK_KP_2 : Int := 65458
def XK_KP_3 : Int := 65459
def XK_KP_4 : Int := 65460
def XK_KP_5 : Int := 65461
def XK_KP_6 : Int := 65462
def XK_KP_7 : Int := 65463
def XK_KP_8 : Int := 65464
def XK_KP_9 : Int := 65465
def XK_F1 : Int := 65470
def XK_F2 : Int := 65471
def XK_F3 : Int := 65472
def XK_F4 : Int := 65473
def XK_F5 : Int := 65474
def XK_F6 : Int := 65475
def XK_F7 : Int := 65476
def XK_F8 : Int := 65477
def XK_F9 : Int := 65478
def XK_F10 : Int := 65479
def XK_F11 : Int := 65480
def XK_F12 : Int := 65481
def XK_F13 : Int := 65482
def XK_F14 : Int := 65483
def XK_F15 : Int := 65484
def XK_F16 : Int := 65485
def XK_F17 : Int := 65486
def XK_F18 : Int := 65487
def XK_F19 : Int := 65488
def XK_F20 : Int := 65489
def XK_F21 : Int := 65490
def XK_F23 : Int := 65492
def XK_F24 : Int := 65493
def XK_Shift_L : Int := 65505
def XK_Shift_R : Int := 65506
def XK_Control_L : Int := 65507
def XK_Control_R : Int := 65508
def XK_Caps_Lock : Int := 65509
def XK_Meta_L : Int := 65511
def XK_Meta_R : Int := 65512
def XK_Alt_L : Int := 65513
def XK_Alt_R : Int := 65514
def XK_Delete : Int := 65535

/-- One slot of the keycode table (the `keycode_t` struct, X11 build):
evdev keycode, USB HID scancode, X11 keysym. -/
structure keycode_t where
  keycode : Int
  scancode : Int
  keysym : Int
  deriving DecidableEq, Repr

/-- `std::array<keycode_t, 0xE3> keycodes {}`: value initialization zeroes
every field. -/
def defaultEntry : keycode_t := { keycode := 0, scancode := 0, keysym := 0 }

/-- Rows 1-32 of the `__CONVERT` lines of `init_keycodes`,
in source order (split only to keep elaboration fast). -/
def literalEntries1 : List (Nat × keycode_t) := [
  (0x08, ⟨KEY_BACKSPACE, 0x7002A, XK_BackSpace⟩),  -- VKEY_BACK
  (0x09, ⟨KEY_TAB, 0x7002B, XK_Tab⟩),  -- VKEY_TAB
  (0x0C, ⟨KEY_CLEAR, UNKNOWN, XK_Clear⟩),  -- VKEY_CLEAR
  (0x0D, ⟨KEY_ENTER, 0x70028, XK_Return⟩),  -- VKEY_RETURN
  (0x10, ⟨KEY_LEFTSHIFT, 0x700E1, XK_Shift_L⟩),  -- VKEY_SHIFT
  (0x11, ⟨KEY_LEFTCTRL, 0x700E0, XK_Control_L⟩),  -- VKEY_CONTROL
  (0x12, ⟨KEY_LEFTALT, UNKNOWN, XK_Alt_L⟩),  -- VKEY_MENU
  (0x13, ⟨KEY_PAUSE, UNKNOWN, XK_Pause⟩),  -- VKEY_PAUSE
  (0x14, ⟨KEY_CAPSLOCK, 0x70039, XK_Caps_Lock⟩),  -- VKEY_CAPITAL
  (0x15, ⟨KEY_KATAKANAHIRAGANA, UNKNOWN, XK_Kana_Shift⟩),  -- VKEY_KANA
  (0x16, ⟨KEY_HANGEUL, UNKNOWN, XK_Hangul⟩),  -- VKEY_HANGUL
  (0x17, ⟨KEY_HANJA, UNKNOWN, XK_Hangul_Jeonja⟩),  -- VKEY_JUNJA
  (0x19, ⟨KEY_KATAKANA, UNKNOWN, XK_Kanji⟩),  -- VKEY_KANJI
  (0x1B, ⟨KEY_ESC, 0x70029, XK_Escape⟩),  -- VKEY_ESCAPE
  (0x20, ⟨KEY_SPACE, 0x7002C, XK_space⟩),  -- VKEY_SPACE
  (0x21, ⟨KEY_PAGEUP, 0x7004B, XK_Page_Up⟩),  -- VKEY_PRIOR
  (0x22, ⟨KEY_PAGEDOWN, 0x7004E, XK_Page_Down⟩),  -- VKEY_NEXT
  (0x23, ⟨KEY_END, 0x7004D, XK_End⟩),  -- VKEY_END
  (0x24, ⟨KEY_HOME, 0x7004A, XK_Home⟩),  -- VKEY_HOME
  (0x25, ⟨KEY_LEFT, 0x70050, XK_Left⟩),  -- VKEY_LEFT
  (0x26, ⟨KEY_UP, 0x70052, XK_Up⟩),  -- VKEY_UP
  (0x27, ⟨KEY_RIGHT, 0x7004F, XK_Right⟩),  -- VKEY_RIGHT
  (0x28, ⟨KEY_DOWN, 0x70051, XK_Down⟩),  -- VKEY_DOWN
  (0x29, ⟨KEY_SELECT, UNKNOWN, XK_Select⟩),  -- VKEY_SELECT
  (0x2A, ⟨KEY_PRINT, UNKNOWN, XK_Print⟩),  -- VKEY_PRINT
  (0x2C, ⟨KEY_SYSRQ, 0x70046, XK_Sys_Req⟩),  -- VKEY_SNAPSHOT
  (0x2D, ⟨KEY_INSERT, 0x70049, XK_Insert⟩),  -- VKEY_INSERT
  (0x2E, ⟨KEY_DELETE, 0x7004C, XK_Delete⟩),  -- VKEY_DELETE
  (0x2F, ⟨KEY_HELP, UNKNOWN, XK_Help⟩),  -- VKEY_HELP
  (0x30, ⟨KEY_0, 0x70027, XK_0⟩),  -- VKEY_0
  (0x31, ⟨KEY_1, 0x7001E, XK_1⟩),  -- VKEY_1
  (0x32, ⟨KEY_2, 0x7001F, XK_2⟩)  -- VKEY_2
]

/-- Rows 33-64 of the `__CONVERT` lines of `init_keycodes`,
in source order (split only to keep elaboration fast). -/
def literalEntries2 : List (Nat × keycode_t) := [
  (0x33, ⟨KEY_3, 0x70020, XK_3⟩),  -- VKEY_3
  (0x34, ⟨KEY_4, 0x70021, XK_4⟩),  -- VKEY_4
  (0x35, ⟨KEY_5, 0x70022, XK_5⟩),  -- VKEY_5
  (0x36, ⟨KEY_6, 0x70023, XK_6⟩),  -- VKEY_6
  (0x37, ⟨KEY_7, 0x70024, XK_7⟩),  -- VKEY_7
  (0x38, ⟨KEY_8, 0x70025, XK_8⟩),  -- VKEY_8
  (0x39, ⟨KEY_9, 0x70026, XK_9⟩),  -- VKEY_9
  (0x41, ⟨KEY_A, 0x70004, XK_A⟩),  -- VKEY_A
  (0x42, ⟨KEY_B, 0x70005, XK_B⟩),  -- VKEY_B
  (0x43, ⟨KEY_C, 0x70006, XK_C⟩),  -- VKEY_C
  (0x44, ⟨KEY_D, 0x70007, XK_D⟩),  -- VKEY_D
  (0x45, ⟨KEY_E, 0x70008, XK_E⟩),  -- VKEY_E
  (0x46, ⟨KEY_F, 0x70009, XK_F⟩),  -- VKEY_F
  (0x47, ⟨KEY_G, 0x7000A, XK_G⟩),  -- VKEY_G
  (0x48, ⟨KEY_H, 0x7000B, XK_H⟩),  -- VKEY_H
  (0x49, ⟨KEY_I, 0x7000C, XK_I⟩),  -- VKEY_I
  (0x4A, ⟨KEY_J, 0x7000D, XK_J⟩),  -- VKEY_J
  (0x4B, ⟨KEY_K, 0x7000E, XK_K⟩),  -- VKEY_K
  (0x4C, ⟨KEY_L, 0x7000F, XK_L⟩),  -- VKEY_L
  (0x4D, ⟨KEY_M, 0x70010, XK_M⟩),  -- VKEY_M
  (0x4E, ⟨KEY_N, 0x70011, XK_N⟩),  -- VKEY_N
  (0x4F, ⟨KEY_O, 0x70012, XK_O⟩),  -- VKEY_O
  (0x50, ⟨KEY_P, 0x70013, XK_P⟩),  -- VKEY_P
  (0x51, ⟨KEY_Q, 0x70014, XK_Q⟩),  -- VKEY_Q
  (0x52, ⟨KEY_R, 0x70015, XK_R⟩),  -- VKEY_R
  (0x53, ⟨KEY_S, 0x70016, XK_S⟩),  -- VKEY_S
  (0x54, ⟨KEY_T, 0x70017, XK_T⟩),  -- VKEY_T
  (0x55, ⟨KEY_U, 0x70018, XK_U⟩),  -- VKEY_U
  (0x56, ⟨KEY_V, 0x70019, XK_V⟩),  -- VKEY_V
  (0x57, ⟨KEY_W, 0x7001A, XK_W⟩),  -- VKEY_W
  (0x58, ⟨KEY_X, 0x7001B, XK_X⟩),  -- VKEY_X
  (0x59, ⟨KEY_Y, 0x7001C, XK_Y⟩)  -- VKEY_Y
]

/-- Rows 65-96 of the `__CONVERT` lines of `init_keycodes`,
in source order (split only to keep elaboration fast). -/
def literalEntries3 : List (Nat × keycode_t) := [
  (0x5A, ⟨KEY_Z, 0x7001D, XK_Z⟩),  -- VKEY_Z
  (0x5B, ⟨KEY_LEFTMETA, 0x700E3, XK_Meta_L⟩),  -- VKEY_LWIN
  (0x5C, ⟨KEY_RIGHTMETA, 0x700E7, XK_Meta_R⟩),  -- VKEY_RWIN
  (0x5F, ⟨KEY_SLEEP, UNKNOWN, UNKNOWN⟩),  -- VKEY_SLEEP
  (0x60, ⟨KEY_KP0, 0x70062, XK_KP_0⟩),  -- VKEY_NUMPAD0
  (0x61, ⟨KEY_KP1, 0x70059, XK_KP_1⟩),  -- VKEY_NUMPAD1
  (0x62, ⟨KEY_KP2, 0x7005A, XK_KP_2⟩),  -- VKEY_NUMPAD2
  (0x63, ⟨KEY_KP3, 0x7005B, XK_KP_3⟩),  -- VKEY_NUMPAD3
  (0x64, ⟨KEY_KP4, 0x7005C, XK_KP_4⟩),  -- VKEY_NUMPAD4
  (0x65, ⟨KEY_KP5, 0x7005D, XK_KP_5⟩),  -- VKEY_NUMPAD5
  (0x66, ⟨KEY_KP6, 0x7005E, XK_KP_6⟩),  -- VKEY_NUMPAD6
  (0x67, ⟨KEY_KP7, 0x7005F, XK_KP_7⟩),  -- VKEY_NUMPAD7
  (0x68, ⟨KEY_KP8, 0x70060, XK_KP_8⟩),  -- VKEY_NUMPAD8
  (0x69, ⟨KEY_KP9, 0x70061, XK_KP_9⟩),  -- VKEY_NUMPAD9
  (0x6A, ⟨KEY_KPASTERISK, 0x70055, XK_KP_Multiply⟩),  -- VKEY_MULTIPLY
  (0x6B, ⟨KEY_KPPLUS, 0x70057, XK_KP_Add⟩),  -- VKEY_ADD
  (0x6C, ⟨KEY_KPCOMMA, UNKNOWN, XK_KP_Separator⟩),  -- VKEY_SEPARATOR
  (0x6D, ⟨KEY_KPMINUS, 0x70056, XK_KP_Subtract⟩),  -- VKEY_SUBTRACT
  (0x6E, ⟨KEY_KPDOT, 0x70063, XK_KP_Decimal⟩),  -- VKEY_DECIMAL
  (0x6F, ⟨KEY_KPSLASH, 0x70054, XK_KP_Divide⟩),  -- VKEY_DIVIDE
  (0x70, ⟨KEY_F1, 0x70046, XK_F1⟩),  -- VKEY_F1
  (0x71, ⟨KEY_F2, 0x70047, XK_F2⟩),  -- VKEY_F2
  (0x72, ⟨KEY_F3, 0x70048, XK_F3⟩),  -- VKEY_F3
  (0x73, ⟨KEY_F4, 0x70049, XK_F4⟩),  -- VKEY_F4
  (0x74, ⟨KEY_F5, 0x7004a, XK_F5⟩),  -- VKEY_F5
  (0x75, ⟨KEY_F6, 0x7004b, XK_F6⟩),  -- VKEY_F6
  (0x76, ⟨KEY_F7, 0x7004c, XK_F7⟩),  -- VKEY_F7
  (0x77, ⟨KEY_F8, 0x7004d, XK_F8⟩),  -- VKEY_F8
  (0x78, ⟨KEY_F9, 0x7004e, XK_F9⟩),  -- VKEY_F9
  (0x79, ⟨KEY_F10, 0x70044, XK_F10⟩),  -- VKEY_F10
  (0x7A, ⟨KEY_F11, 0x70044, XK_F11⟩),  -- VKEY_F11
  (0x7B, ⟨KEY_F12, 0x70045, XK_F12⟩)  -- VKEY_F12
]

/-- Rows 97-128 of the `__CONVERT` lines of `init_keycodes`,
in source order (split only to keep elaboration fast). -/
def literalEntries4 : List (Nat × keycode_t) := [
  (0x7C, ⟨KEY_F13, 0x7003a, XK_F13⟩),  -- VKEY_F13
  (0x7D, ⟨KEY_F14, 0x7003b, XK_F14⟩),  -- VKEY_F14
  (0x7E, ⟨KEY_F15, 0x7003c, XK_F15⟩),  -- VKEY_F15
  (0x7F, ⟨KEY_F16, 0x7003d, XK_F16⟩),  -- VKEY_F16
  (0x80, ⟨KEY_F17, 0x7003e, XK_F17⟩),  -- VKEY_F17
  (0x81, ⟨KEY_F18, 0x7003f, XK_F18⟩),  -- VKEY_F18
  (0x82, ⟨KEY_F19, 0x70040, XK_F19⟩),  -- VKEY_F19
  (0x83, ⟨KEY_F20, 0x70041, XK_F20⟩),  -- VKEY_F20
  (0x84, ⟨KEY_F21, 0x70042, XK_F21⟩),  -- VKEY_F21
  (0x85, ⟨KEY_F12, 0x70043, XK_F12⟩),  -- VKEY_F22
  (0x86, ⟨KEY_F23, 0x70044, XK_F23⟩),  -- VKEY_F23
  (0x87, ⟨KEY_F24, 0x70045, XK_F24⟩),  -- VKEY_F24
  (0x90, ⟨KEY_NUMLOCK, 0x70053, XK_Num_Lock⟩),  -- VKEY_NUMLOCK
  (0x91, ⟨KEY_SCROLLLOCK, 0x70047, XK_Scroll_Lock⟩),  -- VKEY_SCROLL
  (0xA0, ⟨KEY_LEFTSHIFT, 0x700E1, XK_Shift_L⟩),  -- VKEY_LSHIFT
  (0xA1, ⟨KEY_RIGHTSHIFT, 0x700E5, XK_Shift_R⟩),  -- VKEY_RSHIFT
  (0xA2, ⟨KEY_LEFTCTRL, 0x700E0, XK_Control_L⟩),  -- VKEY_LCONTROL
  (0xA3, ⟨KEY_RIGHTCTRL, 0x700E4, XK_Control_R⟩),  -- VKEY_RCONTROL
  (0xA4, ⟨KEY_LEFTALT, 0x7002E, XK_Alt_L⟩),  -- VKEY_LMENU
  (0xA5, ⟨KEY_RIGHTALT, 0x700E6, XK_Alt_R⟩),  -- VKEY_RMENU
  (0xBA, ⟨KEY_SEMICOLON, 0x70033, XK_semicolon⟩),  -- VKEY_OEM_1
  (0xBB, ⟨KEY_EQUAL, 0x7002E, XK_equal⟩),  -- VKEY_OEM_PLUS
  (0xBC, ⟨KEY_COMMA, 0x70036, XK_comma⟩),  -- VKEY_OEM_COMMA
  (0xBD, ⟨KEY_MINUS, 0x7002D, XK_minus⟩),  -- VKEY_OEM_MINUS
  (0xBE, ⟨KEY_DOT, 0x70037, XK_period⟩),  -- VKEY_OEM_PERIOD
  (0xBF, ⟨KEY_SLASH, 0x70038, XK_slash⟩),  -- VKEY_OEM_2
  (0xC0, ⟨KEY_GRAVE, 0x70035, XK_grave⟩),  -- VKEY_OEM_3
  (0xDB, ⟨KEY_LEFTBRACE, 0x7002F, XK_braceleft⟩),  -- VKEY_OEM_4
  (0xDC, ⟨KEY_BACKSLASH, 0x70031, XK_backslash⟩),  -- VKEY_OEM_5
  (0xDD, ⟨KEY_RIGHTBRACE, 0x70030, XK_braceright⟩),  -- VKEY_OEM_6
  (0xDE, ⟨KEY_APOSTROPHE, 0x70034, XK_apostrophe⟩),  -- VKEY_OEM_7
  (0xE2, ⟨KEY_102ND, 0x70064, XK_backslash⟩)  -- VKEY_NON_US_BACKSLASH
]

/-- The `__CONVERT(wincode, linuxcode, scancode, keysym)` lines of
`init_keycodes`, in source order: Moonlight virtual-key code paired with
the `keycode_t` assigned at that index. -/
def literalEntries : List (Nat × keycode_t) :=
  literalEntries1 ++ literalEntries2 ++ literalEntries3 ++ literalEntries4

/-- `init_keycodes`: start from the zeroed fixed-size array and perform the
`keycodes[wincode] = ...` assignments in order. -/
def init_keycodes : List keycode_t :=
  literalEntries.foldl (fun a e => a.set e.1 e.2) (List.replicate 0xE3 defaultEntry)

/-- `static constexpr auto keycodes = init_keycodes();` -/
def keycodes : List keycode_t := init_keycodes

/-- `keycodes.size()`, the template argument `0xE3`. -/
def keycodesSize : Nat := 0xE3

/-- Rows 1-26 of the initializer list of `key_mappings`,
in source order (split only to keep elaboration fast). -/
def key_mappings_literal1 : List (Int × Int) := [
  (KEY_BACKSPACE, 0x08),
  (KEY_TAB, 0x09),
  (KEY_ENTER, 0x0D),
  (KEY_LEFTSHIFT, 0x10),
  (KEY_LEFTCTRL, 0x11),
  (KEY_CAPSLOCK, 0x14),
  (KEY_ESC, 0x1B),
  (KEY_SPACE, 0x20),
  (KEY_PAGEUP, 0x21),
  (KEY_PAGEDOWN, 0x22),
  (KEY_END, 0x23),
  (KEY_HOME, 0x24),
  (KEY_LEFT, 0x25),
  (KEY_UP, 0x26),
  (KEY_RIGHT, 0x27),
  (KEY_DOWN, 0x28),
  (KEY_SYSRQ, 0x2C),
  (KEY_INSERT, 0x2D),
  (KEY_DELETE, 0x2E),
  (KEY_0, 0x30),
  (KEY_1, 0x31),
  (KEY_2, 0x32),
  (KEY_3, 0x33),
  (KEY_4, 0x34),
  (KEY_5, 0x35),
  (KEY_6, 0x36)
]

/-- Rows 27-52 of the initializer list of `key_mappings`,
in source order (split only to keep elaboration fast). -/
def key_mappings_literal2 : List (Int × Int) := [
  (KEY_7, 0x37),
  (KEY_8, 0x38),
  (KEY_9, 0x39),
  (KEY_A, 0x41),
  (KEY_B, 0x42),
  (KEY_C, 0x43),
  (KEY_D, 0x44),
  (KEY_E, 0x45),
  (KEY_F, 0x46),
  (KEY_G, 0x47),
  (KEY_H, 0x48),
  (KEY_I, 0x49),
  (KEY_J, 0x4A),
  (KEY_K, 0x4B),
  (KEY_L, 0x4C),
  (KEY_M, 0x4D),
  (KEY_N, 0x4E),
  (KEY_O, 0x4F),
  (KEY_P, 0x50),
  (KEY_Q, 0x51),
  (KEY_R, 0x52),
  (KEY_S, 0x53),
  (KEY_T, 0x54),
  (KEY_U, 0x55),
  (KEY_V, 0x56),
  (KEY_W, 0x57)
]

/-- Rows 53-78 of the initializer list of `key_mappings`,
in source order (split only to keep elaboration fast). -/
def key_mappings_literal3 : List (Int × Int) := [
  (KEY_X, 0x58),
  (KEY_Y, 0x59),
  (KEY_Z, 0x5A),
  (KEY_LEFTMETA, 0x5B),
  (KEY_RIGHTMETA, 0x5C),
  (KEY_KP0, 0x60),
  (KEY_KP1, 0x61),
  (KEY_KP2, 0x62),
  (KEY_KP3, 0x63),
  (KEY_KP4, 0x64),
  (KEY_KP5, 0x65),
  (KEY_KP6, 0x66),
  (KEY_KP7, 0x67),
  (KEY_KP8, 0x68),
  (KEY_KP9, 0x69),
  (KEY_KPASTERISK, 0x6A),
  (KEY_KPPLUS, 0x6B),
  (KEY_KPMINUS, 0x6D),
  (KEY_KPDOT, 0x6E),
  (KEY_KPSLASH, 0x6F),
  (KEY_F1, 0x70),
  (KEY_F2, 0x71),
  (KEY_F3, 0x72),
  (KEY_F4, 0x73),
  (KEY_F5, 0x74),
  (KEY_F6, 0x75)
]

/-- Rows 79-104 of the initializer list of `key_mappings`,
in source order (split only to keep elaboration fast). -/
def key_mappings_literal4 : List (Int × Int) := [
  (KEY_F7, 0x76),
  (KEY_F8, 0x77),
  (KEY_F9, 0x78),
  (KEY_F10, 0x79),
  (KEY_F11, 0x7A),
  (KEY_F12, 0x7B),
  (KEY_NUMLOCK, 0x90),
  (KEY_SCROLLLOCK, 0x91),
  (KEY_LEFTSHIFT, 0xA0),
  (KEY_RIGHTSHIFT, 0xA1),
  (KEY_LEFTCTRL, 0xA2),
  (KEY_RIGHTCTRL, 0xA3),
  (KEY_LEFTALT, 0xA4),
  (KEY_RIGHTALT, 0xA5),
  (KEY_SEMICOLON, 0xBA),
  (KEY_EQUAL, 0xBB),
  (KEY_COMMA, 0xBC),
  (KEY_MINUS, 0xBD),
  (KEY_DOT, 0xBE),
  (KEY_SLASH, 0xBF),
  (KEY_GRAVE, 0xC0),
  (KEY_LEFTBRACE, 0xDB),
  (KEY_BACKSLASH, 0xDC),
  (KEY_RIGHTBRACE, 0xDD),
  (KEY_APOSTROPHE, 0xDE),
  (KEY_102ND, 0xE2)
]

/-- The initializer list of `key_mappings` (evdev keycode, Moonlight code),
in source order, duplicates included. -/
def key_mappings_literal : List (Int × Int) :=
  key_mappings_literal1 ++ key_mappings_literal2 ++ key_mappings_literal3 ++ key_mappings_literal4

/-- `std::map` construction from an initializer list: elements are inserted
in order and `insert` keeps the existing entry on a key collision, so the
first occurrence of a key wins. The map is represented as the association
list of its entries in insertion order. -/
def mapInsert (m : List (Int × Int)) (kv : Int × Int) : List (Int × Int) :=
  if m.any (fun p => p.1 = kv.1) then m else m ++ [kv]

/-- `static const std::map<short, short> key_mappings = { ... };` -/
def key_mappings : List (Int × Int) :=
  key_mappings_literal.foldl mapInsert []

/-- `map.find(k)`: the value stored under `k`, if any. -/
def mapFind (m : List (Int × Int)) (k : Int) : Option Int :=
  (m.find? (fun p => p.1 = k)).map (fun p => p.2)

/-- `to_hex`: print each UTF-32 code unit with `std::hex` (lowercase,
no field width, so no padding), concatenate, then `::toupper` each
character. `Nat.toDigits 16` renders exactly the lowercase hex digits of
one value (`0` renders as "0"). -/
def to_hex (str : List Nat) : List Char :=
  (str.flatMap (fun ch => Nat.toDigits 16 ch)).map Char.toUpper

/-- `platf::keyboard::update` with a live X display connection modelled by
`display`, and `XKeysymToKeycode` for the connection's active layout
modelled by `layout` (`0` = no native keycode for the keysym).
`modcode` is the incoming `uint16_t` virtual key.
Result `none` marks the out-of-bounds table read `keycodes[modcode]`
(undefined behaviour in the source); `some evs` is the list of backend
calls of a defined execution. -/
def update (display : Bool) (layout : Int → Nat) (modcode : Nat) (release : Bool) :
    Option (List XEvent) :=
  if display then
    if modcode > keycodesSize then some []
    else
      match keycodes.get? modcode with
      | none => none
      | some entry =>
        if entry.keysym = UNKNOWN then some []
        else
          let keycode_x := layout entry.keysym
          if keycode_x = 0 then some []
          else some [XEvent.fakeKey keycode_x (!release), XEvent.flushX]
  else some []

/-- The body of the per-character loop of `platf::keyboard::unicode`:
resolve `"KEY_" + ch` through `libevdev_event_code_from_name` (modelled by
`evdev`, `-1` = not found), then through `key_mappings`; on failure log
and skip, otherwise press and release the found Moonlight code. -/
def ucDigitEvents (evdev : Char → Int) (ch : Char) : List KEvent :=
  let keycode := evdev ch
  if keycode = -1 then []
  else
    match mapFind key_mappings keycode with
    | none => []
    | some wincode => [KEvent.press wincode, KEvent.release wincode]

/-- The fixed opening of the Unicode sequence: press left-Ctrl (0xA2),
press left-Shift (0xA0), press then release U (0x55). -/
def ucOpen : List KEvent :=
  [KEvent.press 0xA2, KEvent.press 0xA0, KEvent.press 0x55, KEvent.release 0x55]

/-- The fixed closing of the Unicode sequence: release left-Shift (0xA0),
then release left-Ctrl (0xA2). -/
def ucClose : List KEvent :=
  [KEvent.release 0xA0, KEvent.release 0xA2]

/-- `platf::keyboard::unicode` with a live virtual keyboard handle
modelled by `keyboardPresent` and the input already decoded to the UTF-32
code points `str` (the boost UTF-8 → UTF-32 conversion is the external
decoding step). -/
def unicode (evdev : Char → Int) (keyboardPresent : Bool) (str : List Nat) : List KEvent :=
  if keyboardPresent then
    ucOpen ++ (to_hex str).flatMap (ucDigitEvents evdev) ++ ucClose
  else []

/-- Actual behaviour of `libevdev_event_code_from_name (EV_KEY, "KEY_" + ch)`
on the characters the hex encoder can produce: the sixteen names
`KEY_0` .. `KEY_9`, `KEY_A` .. `KEY_F` resolve to their evdev codes; every
other single-character name used here resolves to no code (`-1`). -/
def evdevHex (ch : Char) : Int :=
  if ch = '0' then KEY_0
  else if ch = '1' then KEY_1
  else if ch = '2' then KEY_2
  else if ch = '3' then KEY_3
  else if ch = '4' then KEY_4
  else if ch = '5' then KEY_5
  else if ch = '6' then KEY_6
  else if ch = '7' then KEY_7
  else if ch = '8' then KEY_8
  else if ch = '9' then KEY_9
  else if ch = 'A' then KEY_A
  else if ch = 'B' then KEY_B
  else if ch = 'C' then KEY_C
  else if ch = 'D' then KEY_D
  else if ch = 'E' then KEY_E
  else if ch = 'F' then KEY_F
  else -1

/-- The Moonlight code that the Unicode path should type for one uppercase
hex digit: '0'-'9' are 0x30-0x39, 'A'-'F' are 0x41-0x46 (spec-side
description of the expected digit resolution, for comparison with the
evdev + reverse-table chain of the source). -/
def digitKey (ch : Char) : Int :=
  if '0' ≤ ch ∧ ch ≤ '9' then 0x30 + (ch.toNat - '0'.toNat)
  else if 'A' ≤ ch ∧ ch ≤ 'F' then 0x41 + (ch.toNat - 'A'.toNat)
  else 0

/-- Presses of the Moonlight code `k` in a virtual-keyboard event list. -/
def countPress (k : Int) (l : List KEvent) : Nat :=
  l.countP (fun e => e = KEvent.press k)

/-- Releases of the Moonlight code `k` in a virtual-keyboard event list. -/
def countRelease (k : Int) (l : List KEvent) : Nat :=
  l.countP (fun e => e = KEvent.release k)

/-- The condition of the two `static_assert`s in `__CONVERT`, for a literal
index `wincode`: `wincode < keycodes.size()` and `wincode >= 0`. -/
def convertAssertOk (wincode : Int) : Prop :=
  wincode < (keycodesSize : Int) ∧ 0 ≤ wincode

instance (w : Int) : Decidable (convertAssertOk w) := by
  unfold convertAssertOk; infer_instance

/-- The literal indices fed to `__CONVERT`, as the `int` literals they are
in the source. -/
def literalWincodes : List Int :=
  literalEntries.map (fun e => (e.1 : Int))

end keyboard


/-! ## Helper definitions for the verification statements -/

namespace keyboard

/-- The sixteen characters the uppercase hex encoder can produce. -/
def hexChars : List Char :=
  ['0', '1', '2', '3', '4', '5', '6', '7', '8', '9', 'A', 'B', 'C', 'D', 'E', 'F']

end keyboard

open keyboard mouse

/-! ## Shared lemmas -/

set_option maxRecDepth 40000

theorem keycodes_len : keycodes.length = 227 := by decide

theorem countPress_append (k : Int) (l1 l2 : List KEvent) :
    countPress k (l1 ++ l2) = countPress k l1 + countPress k l2 :=
  List.countP_append _ _ _

theorem countRelease_append (k : Int) (l1 l2 : List KEvent) :
    countRelease k (l1 ++ l2) = countRelease k l1 + countRelease k l2 :=
  List.countP_append _ _ _

theorem ucDigitEvents_balance (evdev : Char → Int) (k : Int) (ch : Char) :
    countPress k (ucDigitEvents evdev ch) = countRelease k (ucDigitEvents evdev ch) := by
  by_cases h1 : evdev ch = -1
  · simp only [ucDigitEvents, h1, if_true, if_pos]
    rfl
  · cases h2 : mapFind key_mappings (evdev ch) with
    | none =>
      simp only [ucDigitEvents, h1, h2, if_false, if_neg, not_false_iff]
      rfl
    | some w =>
      by_cases hw : w = k <;>
        simp [ucDigitEvents, h1, h2, countPress, countRelease, List.countP_cons, hw]

theorem flatMap_ucDigitEvents_balance (evdev : Char → Int) (k : Int) (l : List Char) :
    countPress k (l.flatMap (ucDigitEvents evdev)) =
      countRelease k (l.flatMap (ucDigitEvents evdev)) := by
  induction l with
  | nil => rfl
  | cons c cs ih =>
    simp only [List.flatMap_cons, countPress_append, countRelease_append,
      ucDigitEvents_balance, ih]

theorem flatMap_congr_mem {α β : Type} (l : List α) (f g : α → List β)
    (h : ∀ a ∈ l, f a = g a) : l.flatMap f = l.flatMap g := by
  induction l with
  | nil => rfl
  | cons a as ih =>
    simp only [List.flatMap_cons]
    rw [h a (List.mem_cons_self a as), ih (fun b hb => h b (List.mem_cons_of_mem a hb))]

theorem ucDigitEvents_hex (c : Char) (h : c ∈ hexChars) :
    ucDigitEvents evdevHex c = [KEvent.press (digitKey c), KEvent.release (digitKey c)] := by
  revert c h; decide

theorem to_hex_ascii_hexChars : ∀ cp < 128, ∀ c ∈ to_hex [cp], c ∈ hexChars := by decide

theorem pulseCount_replicate (n : Nat) (b : Nat) :
    pulseCount ((List.replicate n (pulsePair b)).flatten) = n := by
  induction n with
  | zero => rfl
  | succ m ih =>
    simp only [List.replicate_succ, List.flatten_cons]
    rw [pulseCount, List.countP_append]
    rw [pulseCount] at ih
    rw [ih]
    have hp : List.countP
        (fun e => match e with
          | MEvent.fakeButton _ true => true
          | _ => false) (pulsePair b) = 1 := rfl
    rw [hp]
    exact Nat.add_comm 1 m

theorem mem_replicate_pulsePair (n : Nat) (b : Nat) (e : MEvent)
    (h : e ∈ (List.replicate n (pulsePair b)).flatten) :
    e = MEvent.fakeButton b true ∨ e = MEvent.fakeButton b false := by
  rw [List.mem_flatten] at h
  obtain ⟨s, hs, he⟩ := h
  rw [List.eq_of_mem_replicate hs] at he
  simp only [pulsePair, List.mem_cons, List.not_mem_nil, or_false] at he
  exact he

theorem x_scroll_pulseCount (dist : Int) (bp bn : Nat) :
    pulseCount (x_scroll true dist bp bn) = dist.natAbs := by
  rw [show x_scroll true dist bp bn =
      (List.replicate dist.natAbs
        (pulsePair (if dist > 0 then bp else bn))).flatten ++ [MEvent.flushM] from rfl]
  rw [pulseCount, List.countP_append]
  have h1 := pulseCount_replicate dist.natAbs (if dist > 0 then bp else bn)
  rw [pulseCount] at h1
  rw [h1]
  rfl

theorem x_scroll_buttons (dist : Int) (bp bn : Nat) (b : Nat) (p : Bool)
    (h : MEvent.fakeButton b p ∈ x_scroll true dist bp bn) :
    b = if dist > 0 then bp else bn := by
  rw [show x_scroll true dist bp bn =
      (List.replicate dist.natAbs
        (pulsePair (if dist > 0 then bp else bn))).flatten ++ [MEvent.flushM] from rfl] at h
  rw [List.mem_append] at h
  rcases h with h | h
  · rcases mem_replicate_pulsePair _ _ _ h with h' | h' <;>
      exact (MEvent.fakeButton.injEq _ _ _ _).mp h' |>.1
  · exact MEvent.noConfusion (List.mem_singleton.mp h)

/-! ## Claim theorems -/


/-- C1: for an input consisting of one ASCII character (code point below
128 — every such code point's hex digits resolve through the reverse key
table), `unicode` with a live virtual keyboard emits exactly
press(left-ctrl 0xA2), press(left-shift 0xA0), press(U 0x55),
release(U 0x55), then for each hex digit of the code point in order a
press immediately followed by a release of that digit's Moonlight key,
then release(left-shift 0xA0), release(left-ctrl 0xA2). -/
theorem unicode_single_ascii_bracket (cp : Nat) (h : cp < 128) :
    unicode evdevHex true [cp] =
      ucOpen
      ++ (to_hex [cp]).flatMap
          (fun c => [KEvent.press (digitKey c), KEvent.release (digitKey c)])
      ++ ucClose := by
  show ucOpen ++ (to_hex [cp]).flatMap (ucDigitEvents evdevHex) ++ ucClose = _
  rw [flatMap_congr_mem (to_hex [cp]) (ucDigitEvents evdevHex)
      (fun c => [KEvent.press (digitKey c), KEvent.release (digitKey c)])
      (fun c hc => ucDigitEvents_hex c (to_hex_ascii_hexChars cp h c hc))]

/-- C1 witness: the single character 'A' (code point 0x41, hex digits
"41") produces the ten-event bracket. -/
theorem unicode_single_ascii_bracket_witness :
    unicode evdevHex true [65] =
      [KEvent.press 0xA2, KEvent.press 0xA0, KEvent.press 0x55, KEvent.release 0x55,
       KEvent.press 0x34, KEvent.release 0x34, KEvent.press 0x31, KEvent.release 0x31,
       KEvent.release 0xA0, KEvent.release 0xA2] :=
  (unicode_single_ascii_bracket 65 (by decide)).trans (by decide)

/-- C2: with a live display connection, `scroll` emits exactly
`|d / 60|` (C truncating division) paired press/release pulses, all on
the vertical button chosen by the sign of the quotient (4 positive,
5 otherwise), and `hscroll` does the same on the horizontal pair 6/7;
in particular 180 gives 3 positive pulses, -59 gives 0 pulses and 60
gives 1 pulse. -/
theorem scroll_quantization :
    (∀ d : Int, pulseCount (scroll true d) = (Int.tdiv d 60).natAbs) ∧
    (∀ d : Int, pulseCount (hscroll true d) = (Int.tdiv d 60).natAbs) ∧
    (∀ (d : Int) (b : Nat) (p : Bool), MEvent.fakeButton b p ∈ scroll true d →
      b = if Int.tdiv d 60 > 0 then 4 else 5) ∧
    (∀ (d : Int) (b : Nat) (p : Bool), MEvent.fakeButton b p ∈ hscroll true d →
      b = if Int.tdiv d 60 > 0 then 6 else 7) ∧
    scroll true 180 = pulsePair 4 ++ pulsePair 4 ++ pulsePair 4 ++ [MEvent.flushM] ∧
    scroll true (-59) = [MEvent.flushM] ∧
    scroll true 60 = pulsePair 4 ++ [MEvent.flushM] := by
  refine ⟨fun d => x_scroll_pulseCount _ 4 5, fun d => x_scroll_pulseCount _ 6 7,
    fun d b p h => x_scroll_buttons _ 4 5 b p h,
    fun d b p h => x_scroll_buttons _ 6 7 b p h, by decide, by decide, by decide⟩

/-- C2 witness: `scroll(sink, 180)` emits events containing a press of
button 4, and that button is the positive one for quotient 3. -/
theorem scroll_quantization_witness :
    (4 : Nat) = if Int.tdiv 180 60 > 0 then 4 else 5 :=
  scroll_quantization.2.2.1 180 4 true (by decide)

/-- C3: the bounds check of `update` uses `>` where `>=` is needed:
virtual key 0xE3 (equal to `keycodes.size()`) passes the guard although
it is not a valid index of the table, so the subsequent `keycodes[0xE3]`
reads one element past the end of the array (undefined behaviour),
contradicting the claim that every out-of-range virtual key is dropped
without reading any table entry. -/
theorem update_bounds_guard_admits_size_index :
    ¬ ((0xE3 : Nat) > keycodesSize) ∧ keycodes.get? 0xE3 = none ∧
      update true (fun _ => 0) 0xE3 false = none :=
  ⟨by decide, by decide, by decide⟩

/-- C4 counterexample: 0xE3 is not a valid index of the keycode table —
the table has 0xE3 = 227 slots, indices 0x00 through 0xE2. -/
theorem keycode_table_no_slot_at_0xE3 : ¬ ((0xE3 : Nat) < keycodes.length) := by decide

/-- C4 amended: the keycode table has one slot for every protocol
virtual-key code from 0x00 to 0xE2 inclusive (its size is 0xE3): each
such index is valid and holds the literal table's mapping for that code,
or the zero-valued default entry when the code is unassigned. -/
theorem keycode_table_covers_0x00_to_0xE2 :
    ∀ i ≤ 0xE2, i < keycodes.length ∧
      keycodes.get? i =
        some (((literalEntries.find? (fun e => e.1 = i)).map (fun e => e.2)).getD
          defaultEntry) := by
  decide

/-- C4 witness: slot 0x41 (VKEY_A) is valid and holds the literal entry. -/
theorem keycode_table_covers_witness :
    0x41 < keycodes.length ∧
      keycodes.get? 0x41 =
        some (((literalEntries.find? (fun e => e.1 = 0x41)).map (fun e => e.2)).getD
          defaultEntry) :=
  keycode_table_covers_0x00_to_0xE2 0x41 (by decide)

/-- C5: for every evdev name-lookup behaviour and every input, `unicode`
with a live virtual keyboard emits the opening modifier presses and the
closing release(left-shift), release(left-ctrl); a digit whose lookup
fails (name not found, or no reverse-table entry) contributes no events
while the remaining digits are processed; and the emitted sequence is
balanced: every code is pressed exactly as often as it is released. -/
theorem unicode_skip_unresolvable_balanced (evdev : Char → Int) (str : List Nat) :
    (unicode evdev true str =
      ucOpen ++ (to_hex str).flatMap (ucDigitEvents evdev) ++ ucClose) ∧
    (∀ ch, evdev ch = -1 ∨ mapFind key_mappings (evdev ch) = none →
      ucDigitEvents evdev ch = []) ∧
    (∀ k, countPress k (unicode evdev true str) =
      countRelease k (unicode evdev true str)) := by
  refine ⟨rfl, ?_, ?_⟩
  · intro ch h
    rcases h with h | h
    · simp only [ucDigitEvents, h, if_true, if_pos]
    · simp only [ucDigitEvents, h]
      split
      · rfl
      · rfl
  · intro k
    show countPress k (ucOpen ++ (to_hex str).flatMap (ucDigitEvents evdev) ++ ucClose) =
      countRelease k (ucOpen ++ (to_hex str).flatMap (ucDigitEvents evdev) ++ ucClose)
    rw [countPress_append, countPress_append, countRelease_append, countRelease_append,
      flatMap_ucDigitEvents_balance]
    have hoc : countPress k ucOpen + countPress k ucClose =
        countRelease k ucOpen + countRelease k ucClose := by
      by_cases h2 : (0xA2 : Int) = k <;> by_cases h0 : (0xA0 : Int) = k <;>
        by_cases h5 : (0x55 : Int) = k <;>
          simp [ucOpen, ucClose, countPress, countRelease, List.countP_cons, h2, h0, h5]
    omega

/-- C5 witness: with a lookup that resolves nothing, typing 'A' still
yields a balanced sequence (shown at the left-shift code 0xA0). -/
theorem unicode_skip_unresolvable_balanced_witness :
    countPress 0xA0 (unicode (fun _ => -1) true [65]) =
      countRelease 0xA0 (unicode (fun _ => -1) true [65]) :=
  (unicode_skip_unresolvable_balanced (fun _ => -1) [65]).2.2 0xA0

/-- C6 counterexample: at virtual key 0xE3 with a live display, `update`
does not perform the defined zero-event no-op the claim requires: the
execution reads `keycodes[0xE3]`, one past the end of the table
(undefined behaviour, modelled as `none`). -/
theorem update_out_of_bounds_read :
    update true (fun _ => 0) 0xE3 false ≠ some [] ∧
      ∀ evs, update true (fun _ => 0) 0xE3 false ≠ some evs := by
  refine ⟨by decide, fun evs h => ?_⟩
  rw [show update true (fun _ => 0) 0xE3 false = none from by decide] at h
  exact Option.noConfusion h

/-- C6 amended: for every virtual key other than 0xE3 (the index admitted
by the off-by-one bounds guard), `update` is a pure function that
performs a defined execution submitting exactly zero or one synthetic
key event: zero without a display connection, zero when the key is
beyond the table, when its stored keysym is UNKNOWN (which also covers
unassigned zero-valued slots), or when the layout resolves the keysym to
native keycode 0; otherwise exactly one key event carrying `!release`,
followed immediately by a flush. -/
theorem update_zero_or_one_event (layout : Int → Nat) (modcode : Nat) (release : Bool)
    (h : modcode ≠ 0xE3) :
    update false layout modcode release = some [] ∧
    ∃ evs, update true layout modcode release = some evs ∧
      (evs = [] ∨ ∃ k, evs = [XEvent.fakeKey k (!release), XEvent.flushX]) ∧
      (keycodesSize < modcode → evs = []) ∧
      (∀ e, keycodes.get? modcode = some e →
        (e.keysym = UNKNOWN → evs = []) ∧
        (layout e.keysym = 0 → evs = []) ∧
        (e.keysym ≠ UNKNOWN → layout e.keysym ≠ 0 →
          evs = [XEvent.fakeKey (layout e.keysym) (!release), XEvent.flushX])) := by
  refine ⟨rfl, ?_⟩
  have hshow : update true layout modcode release =
      (if modcode > keycodesSize then some []
       else match keycodes.get? modcode with
         | none => none
         | some entry =>
           if entry.keysym = UNKNOWN then some []
           else if layout entry.keysym = 0 then some []
           else some [XEvent.fakeKey (layout entry.keysym) (!release), XEvent.flushX]) := rfl
  have h227 : keycodesSize = 227 := rfl
  by_cases hgt : modcode > keycodesSize
  · refine ⟨[], ?_, Or.inl rfl, fun _ => rfl, fun e he => ?_⟩
    · rw [hshow, if_pos hgt]
    · exfalso
      have hlen : keycodes.length ≤ modcode := by
        rw [keycodes_len]
        omega
      rw [List.get?_eq_none.mpr hlen] at he
      exact Option.noConfusion he
  · have hlt : modcode < keycodes.length := by
      rw [keycodes_len]
      omega
    obtain ⟨e, he⟩ : ∃ e, keycodes.get? modcode = some e := ⟨_, List.get?_eq_get hlt⟩
    have hupd : update true layout modcode release =
        (if e.keysym = UNKNOWN then some []
         else if layout e.keysym = 0 then some []
         else some [XEvent.fakeKey (layout e.keysym) (!release), XEvent.flushX]) := by
      rw [hshow, if_neg hgt, he]
    by_cases hsym : e.keysym = UNKNOWN
    · refine ⟨[], by rw [hupd, if_pos hsym], Or.inl rfl, fun hc => absurd hc hgt,
        fun e' he' => ?_⟩
      rw [he] at he'
      have heq : e' = e := (Option.some.inj he').symm
      subst heq
      exact ⟨fun _ => rfl, fun _ => rfl, fun hne _ => absurd hsym hne⟩
    · by_cases hlay : layout e.keysym = 0
      · refine ⟨[], by rw [hupd, if_neg hsym, if_pos hlay], Or.inl rfl,
          fun hc => absurd hc hgt, fun e' he' => ?_⟩
        rw [he] at he'
        have heq : e' = e := (Option.some.inj he').symm
        subst heq
        exact ⟨fun hs => absurd hs hsym, fun _ => rfl, fun _ hl => absurd hlay hl⟩
      · refine ⟨[XEvent.fakeKey (layout e.keysym) (!release), XEvent.flushX],
          by rw [hupd, if_neg hsym, if_neg hlay], Or.inr ⟨layout e.keysym, rfl⟩,
          fun hc => absurd hc hgt, fun e' he' => ?_⟩
        rw [he] at he'
        have heq : e' = e := (Option.some.inj he').symm
        subst heq
        exact ⟨fun hs => absurd hs hsym, fun hl => absurd hl hlay, fun _ _ => rfl⟩

/-- C6 witness: virtual key 0x41 (VKEY_A) with a layout resolving its
keysym to native keycode 38 yields exactly one pressed key event and a
flush. -/
theorem update_zero_or_one_event_witness :
    update true (fun _ => 38) 0x41 false = some [XEvent.fakeKey 38 true, XEvent.flushX] := by
  obtain ⟨-, evs, hevs, -, -, hsome⟩ := update_zero_or_one_event (fun _ => 38) 0x41 false
    (by decide)
  rw [hevs]
  rw [(hsome ⟨30, 0x70004, 0x41⟩ (by decide)).2.2 (by decide) (by decide)]
  rfl

/-- C7: `button` drops every Moonlight value outside {left, middle,
right} with zero backend calls regardless of the display connection (it
has no error channel and returns normally), and with a live connection
each supported value emits exactly one button event on the corresponding
native button Button1/Button2/Button3, followed by a flush. -/
theorem button_unsupported_dropped :
    (∀ (b : Int) (r : Bool) (display : Bool),
      b ≠ BUTTON_LEFT → b ≠ BUTTON_MIDDLE → b ≠ BUTTON_RIGHT →
        button display b r = []) ∧
    (∀ r, button true BUTTON_LEFT r = [MEvent.fakeButton Button1 (!r), MEvent.flushM]) ∧
    (∀ r, button true BUTTON_MIDDLE r = [MEvent.fakeButton Button2 (!r), MEvent.flushM]) ∧
    (∀ r, button true BUTTON_RIGHT r = [MEvent.fakeButton Button3 (!r), MEvent.flushM]) := by
  refine ⟨fun b r display h1 h2 h3 => ?_, fun r => rfl, fun r => rfl, fun r => rfl⟩
  simp [button, xButtonType, h1, h2, h3]

/-- C7 witness: the unsupported Moonlight button value 42 emits nothing. -/
theorem button_unsupported_dropped_witness :
    button true 42 false = [] :=
  button_unsupported_dropped.1 42 false true (by decide) (by decide) (by decide)

/-- C8: the `__CONVERT` static assertions hold for every literal index of
the curated table (so construction succeeds), and the asserted condition
is exactly membership of the index in [0, table size). -/
theorem convert_static_asserts :
    (∀ w ∈ literalWincodes, convertAssertOk w) ∧
    (∀ w : Int, convertAssertOk w ↔ 0 ≤ w ∧ w < (keycodesSize : Int)) := by
  refine ⟨by decide, fun w => ?_⟩
  unfold convertAssertOk
  exact and_comm

/-- C8 witness: the first literal index, 0x08 (VKEY_BACK), passes the
static assertions. -/
theorem convert_static_asserts_witness : convertAssertOk 0x08 :=
  convert_static_asserts.1 0x08 (by decide)

/-- C9: `get_location` returns the fixed origin (0, 0) for every sink,
with or without a virtual mouse handle; the emitter keeps no state, so
no prior motion, button or scroll call can influence it. -/
theorem get_location_origin : ∀ mousePresent : Bool, get_location mousePresent = (0, 0) := by
  intro m
  cases m <;> rfl

/-- C10: the reverse key table is built by in-order insertion where the
first occurrence of a local keycode wins: the constructed map's keys are
pairwise distinct, every literal pair resolves to its first listed
protocol code, and in particular KEY_LEFTSHIFT resolves to 0x10 and
KEY_LEFTCTRL to 0x11 (not to the later 0xA0/0xA2 duplicates). -/
theorem key_mappings_first_occurrence_wins :
    (key_mappings.map Prod.fst).Nodup ∧
    mapFind key_mappings KEY_LEFTSHIFT = some 0x10 ∧
    mapFind key_mappings KEY_LEFTCTRL = some 0x11 ∧
    ∀ kv ∈ key_mappings_literal,
      mapFind key_mappings kv.1 = mapFind key_mappings_literal kv.1 :=
  ⟨by decide, by decide, by decide, by decide⟩

/-- C10 witness: the duplicate literal pair (KEY_LEFTSHIFT, 0xA0) still
resolves to the first occurrence's value. -/
theorem key_mappings_first_occurrence_wins_witness :
    mapFind key_mappings KEY_LEFTSHIFT = mapFind key_mappings_literal KEY_LEFTSHIFT :=
  key_mappings_first_occurrence_wins.2.2.2 (KEY_LEFTSHIFT, 0xA0) (by decide)

end Sunshine
